import Mathlib

/-!
Shallow embedding of the aisuite search core: the normalized result model,
the three concrete search adapters (serp, tavily, you.com), the provider
registry (`SearchProviderFactory`) and the client facade (`SearchClient`).

Network I/O is modelled by an oracle `Net : UpstreamCall → UpstreamResponse`;
every operation that performs upstream calls additionally returns the list of
calls it issued, so that "no network call happens" is expressible.  The
process environment (`os.getenv`) is the oracle `Env : String → Option String`.
Python dicts with string keys are association lists; a key that Python maps to
`None` is modelled by the key being absent.
-/

/-- Normalized search result: the dataclass `SearchResult` of
`search_provider.py`, with the four required string fields. -/
structure SearchResult where
  title : String
  url : String
  content : String
  source : String
deriving DecidableEq, Repr

/-- Python string dict / keyword arguments, as an association list
(keys unique, insertion ordered). -/
abbrev PyDict := List (String × String)

/-- Python dict lookup `d.get(k)`: first binding of the key, if any. -/
def alistGet? {α : Type} : List (String × α) → String → Option α
  | [], _ => none
  | (k2, v) :: rest, k => if k2 = k then some v else alistGet? rest k

/-- Python dict assignment `d[k] = v`: replace the binding in place if the key
is present, else append it. -/
def alistInsert {α : Type} : List (String × α) → String → α → List (String × α)
  | [], k, v => [(k, v)]
  | (k2, v2) :: rest, k, v =>
    if k2 = k then (k2, v) :: rest else (k2, v2) :: alistInsert rest k v

/-- Python `dict.update` / double-splat merge: the entries of the second dict
override or extend the first. -/
def alistUpdate {α : Type} (base entries : List (String × α)) :
    List (String × α) :=
  entries.foldl (fun d p => alistInsert d p.1 p.2) base

/-- Python `a or b` on strings: the empty string is falsy. -/
def pyOr (a b : String) : String := if a = "" then b else a

/-- Python `a or b` where both operands are `str | None`: `None` and the empty
string are falsy. -/
def pyOrOpt (a b : Option String) : Option String :=
  match a with
  | some s => if s = "" then b else some s
  | none => b

/-- Python truthiness of a `str | None` value. -/
def pyTruthy : Option String → Bool
  | some s => s ≠ ""
  | none => false

/-- Python `provider.partition(":")` on the character list: the part before
the first colon and the part after it (later colons are kept verbatim);
`none` when no colon occurs. -/
def partitionColonAux : List Char → Option (List Char × List Char)
  | [] => none
  | c :: cs =>
    if c = ':' then some ([], cs)
    else
      match partitionColonAux cs with
      | some (a, b) => some (c :: a, b)
      | none => none

/-- The split `provider_key, _, specific_function = provider.partition(":")`
performed by `SearchClient.search`: splits on the first colon only, and a
string without a colon yields an empty subfunction. -/
def partitionColon (s : String) : String × String :=
  match partitionColonAux s.data with
  | some (a, b) => (⟨a⟩, ⟨b⟩)
  | none => (s, "")

/- ### Upstream JSON shapes
Each structure models the JSON dict an adapter reads; an `Option` field is
`none` exactly when the corresponding key is absent from the payload, which is
the case `dict.get(key, default)` defaults. -/

/-- One entry of the serp `organic_results` array. -/
structure SerpOrganicHit where
  title : Option String
  link : Option String
  snippet : Option String
deriving DecidableEq, Repr

/-- The nested `channel` object of a serp video hit. -/
structure SerpChannel where
  name : Option String
deriving DecidableEq, Repr

/-- One entry of the serp `video_results` array.  The upstream view counter is
kept as its rendered string, which is how the f-string interpolates it. -/
structure SerpVideoHit where
  title : Option String
  link : Option String
  duration : Option String
  views : Option String
  description : Option String
  channel : Option SerpChannel
deriving DecidableEq, Repr

/-- The serp response dict: `organic_results` and `video_results` keys. -/
structure SerpResponse where
  organic_results : Option (List SerpOrganicHit)
  video_results : Option (List SerpVideoHit)
deriving DecidableEq, Repr

/-- One entry of the you.com `hits` array. -/
structure YouHit where
  title : Option String
  url : Option String
  description : Option String
  snippets : Option (List String)
deriving DecidableEq, Repr

/-- One entry of the you.com `news.results` array. -/
structure YouNewsItem where
  title : Option String
  url : Option String
  description : Option String
deriving DecidableEq, Repr

/-- The nested `news` object of the you.com news payload. -/
structure YouNewsBlock where
  results : Option (List YouNewsItem)
deriving DecidableEq, Repr

/-- The you.com web-search payload: the `hits` key. -/
structure YouSearchData where
  hits : Option (List YouHit)
deriving DecidableEq, Repr

/-- The you.com news payload: the `news` key. -/
structure YouNewsData where
  news : Option YouNewsBlock
deriving DecidableEq, Repr

/-- One entry of the tavily `results` array. -/
structure TavilyHit where
  title : Option String
  url : Option String
  content : Option String
deriving DecidableEq, Repr

/-- The tavily response dict: the `results` key. -/
structure TavilyResponse where
  results : Option (List TavilyHit)
deriving DecidableEq, Repr

/-- An upstream call issued by an adapter: the serp SDK call
`GoogleSearch(params).get_dict()`, an httpx `GET`, or the tavily SDK call
`TavilyClient(api_key).search(query, **kwargs)`. -/
inductive UpstreamCall where
  | serpApi (params : PyDict)
  | httpGet (url : String) (params : PyDict) (headers : PyDict)
  | tavilySearch (api_key : String) (query : String) (kwargs : PyDict)
deriving DecidableEq, Repr

/-- An upstream JSON payload, already shaped per backend. -/
inductive UpstreamResponse where
  | serp (r : SerpResponse)
  | youSearch (r : YouSearchData)
  | youNews (r : YouNewsData)
  | tavily (r : TavilyResponse)
deriving DecidableEq, Repr

/-- Reading a payload as a serp dict: a payload of a different shape is a JSON
dict without the expected keys, hence every field absent. -/
def UpstreamResponse.asSerp : UpstreamResponse → SerpResponse
  | .serp r => r
  | _ => ⟨none, none⟩

/-- Reading a payload as a you.com web-search dict. -/
def UpstreamResponse.asYouSearch : UpstreamResponse → YouSearchData
  | .youSearch r => r
  | _ => ⟨none⟩

/-- Reading a payload as a you.com news dict. -/
def UpstreamResponse.asYouNews : UpstreamResponse → YouNewsData
  | .youNews r => r
  | _ => ⟨none⟩

/-- Reading a payload as a tavily dict. -/
def UpstreamResponse.asTavily : UpstreamResponse → TavilyResponse
  | .tavily r => r
  | _ => ⟨none⟩

/-- The network oracle: what the upstream backend answers to each call. -/
abbrev Net := UpstreamCall → UpstreamResponse

/-- The process environment oracle, `os.getenv`. -/
abbrev Env := String → Option String

/-- The typed errors the core raises: `ValueError` for an unknown provider key
(carrying the key and the supported set that the message interpolates),
`ValueError` for a missing credential at adapter construction,
`ImportError` from the registry for a key with no matching module, and the
defensive `ValueError` when a provider instance could not be loaded. -/
inductive SearchError where
  | invalidProviderKey (key : String) (supported : List String)
  | missingCredential (provider : String)
  | importError (moduleKey : String)
  | couldNotLoad (key : String)
deriving DecidableEq, Repr

/- ### Serp adapter (`serp_search_provider.py`) -/

/-- `SerpSearchProvider.__init__`: `api_key or os.getenv("SERP_API_KEY")`,
raising when the result is falsy; on success the instance stores the key. -/
def SerpSearchProvider.init (env : Env) (api_key : Option String) :
    Except SearchError String :=
  let k := pyOrOpt api_key (env "SERP_API_KEY")
  if pyTruthy k then .ok (k.getD "") else .error (.missingCredential "serp")

/-- The field-by-field mapping of `organic_results` entries into
`SearchResult`, with empty-string defaults and the
`source = "serpapi:" ++ engine` provenance tag. -/
def serpMapOrganic (engine : String) (resp : SerpResponse) : List SearchResult :=
  (resp.organic_results.getD []).map fun r =>
    { title := r.title.getD ""
      url := r.link.getD ""
      content := r.snippet.getD ""
      source := "serpapi:" ++ engine }

/-- The `content` string a serp video hit is rendered to: the f-string
concatenating duration, view count, channel name and description. -/
def serpVideoContent (r : SerpVideoHit) : String :=
  "Duration: " ++ r.duration.getD "N/A" ++
  " | Views: " ++ r.views.getD "N/A" ++
  " | Channel: " ++ ((r.channel.getD ⟨none⟩).name.getD "N/A") ++
  " | Description: " ++ r.description.getD ""

/-- The field-by-field mapping of `video_results` entries into `SearchResult`,
tagged `source = "serpapi:youtube"`. -/
def serpMapVideos (resp : SerpResponse) : List SearchResult :=
  (resp.video_results.getD []).map fun r =>
    { title := r.title.getD ""
      url := r.link.getD ""
      content := serpVideoContent r
      source := "serpapi:youtube" }

/-- `SerpSearchProvider.youtube_search`: builds
`params = dict(q, api_key, engine="youtube", **kwargs)`, issues the serp call
and maps `video_results`. -/
def SerpSearchProvider.youtube_search (api_key query : String) (kwargs : PyDict)
    (net : Net) : List SearchResult × List UpstreamCall :=
  let params :=
    alistUpdate [("q", query), ("api_key", api_key), ("engine", "youtube")] kwargs
  let call := UpstreamCall.serpApi params
  (serpMapVideos (net call).asSerp, [call])

/-- `SerpSearchProvider.search`: the `"youtube"` subfunction is routed to
`youtube_search`; otherwise `params` defaults `engine` to `"google"`, merges
`kwargs`, overrides `engine` with a truthy `specific_function`, issues the
call and maps `organic_results` tagged with `params["engine"]` (that key is
always bound, so the lookup default is unreachable). -/
def SerpSearchProvider.search (api_key query specific_function : String)
    (kwargs : PyDict) (net : Net) : List SearchResult × List UpstreamCall :=
  if specific_function = "youtube" then
    SerpSearchProvider.youtube_search api_key query kwargs net
  else
    let base :=
      alistUpdate [("q", query), ("api_key", api_key), ("engine", "google")] kwargs
    let params :=
      if specific_function ≠ "" then alistInsert base "engine" specific_function
      else base
    let call := UpstreamCall.serpApi params
    (serpMapOrganic ((alistGet? params "engine").getD "") (net call).asSerp, [call])

/- ### You.com adapter (`you_search_provider.py`) -/

/-- The you.com API base URL (`YouSearchProvider.BASE_URL`). -/
def YouSearchProvider.BASE_URL : String := "https://api.ydc-index.io"

/-- `YouSearchProvider.__init__`: `api_key or os.getenv("YOU_COM_API_KEY")`,
raising when the result is falsy. -/
def YouSearchProvider.init (env : Env) (api_key : Option String) :
    Except SearchError String :=
  let k := pyOrOpt api_key (env "YOU_COM_API_KEY")
  if pyTruthy k then .ok (k.getD "") else .error (.missingCredential "you.com")

/-- The mapping of `news.results` entries into `SearchResult`, tagged
`source = "you.com:news"`; an absent `news` object behaves like an empty
dict. -/
def youMapNews (data : YouNewsData) : List SearchResult :=
  ((data.news.getD ⟨none⟩).results.getD []).map fun r =>
    { title := r.title.getD ""
      url := r.url.getD ""
      content := r.description.getD ""
      source := "you.com:news" }

/-- The mapping of `hits` entries into `SearchResult`: `content` is the
description, or the space-joined `snippets` when the description is falsy;
tagged `source = "you.com"`. -/
def youMapHits (data : YouSearchData) : List SearchResult :=
  (data.hits.getD []).map fun hit =>
    { title := hit.title.getD ""
      url := hit.url.getD ""
      content :=
        pyOr (hit.description.getD "")
          (String.intercalate " " (hit.snippets.getD []))
      source := "you.com" }

/-- `YouSearchProvider.get_news`: the GET against `BASE_URL ++ "/news?q=" ++ q`
with `params = dict(q, **kwargs)` and the `X-API-Key` header, mapping
`news.results`. -/
def YouSearchProvider.get_news (api_key query : String) (kwargs : PyDict)
    (net : Net) : List SearchResult × List UpstreamCall :=
  let params := alistUpdate [("q", query)] kwargs
  let call := UpstreamCall.httpGet (YouSearchProvider.BASE_URL ++ "/news?q=" ++ query)
    params [("X-API-Key", api_key)]
  (youMapNews (net call).asYouNews, [call])

/-- `YouSearchProvider.search`: subfunction `"get_news"` is routed to
`get_news`; every other value falls through to the web-search GET against
`BASE_URL ++ "/search?query=" ++ q`, the subfunction appearing nowhere in the
request. -/
def YouSearchProvider.search (api_key query specific_function : String)
    (kwargs : PyDict) (net : Net) : List SearchResult × List UpstreamCall :=
  if specific_function = "get_news" then
    YouSearchProvider.get_news api_key query kwargs net
  else
    let params := alistUpdate [("query", query)] kwargs
    let call := UpstreamCall.httpGet
      (YouSearchProvider.BASE_URL ++ "/search?query=" ++ query)
      params [("X-API-Key", api_key)]
    (youMapHits (net call).asYouSearch, [call])

/- ### Tavily adapter (`tavily_search_provider.py`) -/

/-- `TavilySearchProvider.__init__`: `api_key or os.getenv("TAVILY_API_KEY")`,
raising when the result is falsy. -/
def TavilySearchProvider.init (env : Env) (api_key : Option String) :
    Except SearchError String :=
  let k := pyOrOpt api_key (env "TAVILY_API_KEY")
  if pyTruthy k then .ok (k.getD "") else .error (.missingCredential "tavily")

/-- The mapping of tavily `results` entries into `SearchResult`, tagged
`source = "tavily"`. -/
def tavilyMap (resp : TavilyResponse) : List SearchResult :=
  (resp.results.getD []).map fun r =>
    { title := r.title.getD ""
      url := r.url.getD ""
      content := r.content.getD ""
      source := "tavily" }

/-- `TavilySearchProvider.search`: `specific_function` is unused; one SDK call
`self.client.search(query, **kwargs)` whose `results` array is mapped. -/
def TavilySearchProvider.search (api_key query specific_function : String)
    (kwargs : PyDict) (net : Net) : List SearchResult × List UpstreamCall :=
  let call := UpstreamCall.tavilySearch api_key query kwargs
  (tavilyMap (net call).asTavily, [call])

/- ### Provider registry (`search_provider.py`, `SearchProviderFactory`) -/

/-- The contents of the fixed `search_providers` directory that
`PROVIDERS_DIR` points at in this repository. -/
def providersDirFiles : List String :=
  ["serp_search_provider.py", "tavily_search_provider.py", "you_search_provider.py"]

/-- Whether a file name matches the glob pattern used by the registry scan
(a `*_search_provider.py` suffix; the star may match the empty string). -/
def globProviderFile (f : String) : Bool :=
  "_search_provider.py".data.isSuffixOf f.data

/-- `Path.stem` of a matched file name: the glob guarantees a `.py` extension,
which `stem` strips. -/
def fileStem (f : String) : String := ⟨f.data.take (f.data.length - 3)⟩

/-- Python `str.replace(pat, rep)` on character lists: replace every
non-overlapping occurrence, scanning left to right.  Fuelled structural
recursion; any fuel at least the input length computes the replacement. -/
def pyReplaceAux (pat rep : List Char) : Nat → List Char → List Char
  | _, [] => []
  | 0, s => s
  | fuel + 1, c :: cs =>
    if pat.isPrefixOf (c :: cs) && !pat.isEmpty then
      rep ++ pyReplaceAux pat rep fuel (List.drop (pat.length - 1) cs)
    else
      c :: pyReplaceAux pat rep fuel cs

/-- Python `s.replace(pat, rep)`. -/
def pyReplace (s pat rep : String) : String :=
  ⟨pyReplaceAux pat.data rep.data s.data.length s.data⟩

/-- The registry scan: glob `*_search_provider.py` in the providers directory
and derive each key as `file.stem.replace("_search_provider", "")`. -/
def scanProviders (files : List String) : List String :=
  (files.filter globProviderFile).map fun f =>
    pyReplace (fileStem f) "_search_provider" ""

/-- `SearchProviderFactory.get_supported_providers` as the value it denotes
for this process: the memoized scan of the repository providers directory. -/
def SearchProviderFactory.get_supported_providers : List String :=
  scanProviders providersDirFiles

/-- The `functools.cache` cell of `get_supported_providers`. -/
structure FactoryCache where
  cache : Option (List String)
deriving DecidableEq, Repr

/-- `get_supported_providers` with its `functools.cache` state made explicit:
the first call scans the directory as found at that moment and stores the
result; every later call returns the stored value unchanged, whatever the
directory holds by then. -/
def SearchProviderFactory.get_supported_providers_cached (files : List String)
    (st : FactoryCache) : List String × FactoryCache :=
  match st.cache with
  | some v => (v, st)
  | none => (scanProviders files, ⟨some (scanProviders files)⟩)

/-- A per-provider configuration dict (`api_key` etc.). -/
abbrev Config := PyDict

/-- The facade configuration map: provider key to option dict. -/
abbrev Configs := List (String × Config)

/-- A live adapter instance, holding the credential its constructor stored. -/
inductive ProviderInstance where
  | serp (api_key : String)
  | you (api_key : String)
  | tavily (api_key : String)
deriving DecidableEq, Repr

/-- `SearchProviderFactory.create_provider`: resolve
`aisuite.search_providers.<key>_search_provider` and the class
`<key.capitalize()>SearchProvider`, then instantiate it with the option dict.
The three modules of this repository resolve for the keys "serp", "tavily"
and "you"; any other key fails the import. -/
def SearchProviderFactory.create_provider (env : Env) (key : String)
    (config : Config) : Except SearchError ProviderInstance :=
  if key = "serp" then
    (SerpSearchProvider.init env (alistGet? config "api_key")).map .serp
  else if key = "tavily" then
    (TavilySearchProvider.init env (alistGet? config "api_key")).map .tavily
  else if key = "you" then
    (YouSearchProvider.init env (alistGet? config "api_key")).map .you
  else .error (.importError key)

/- ### Client facade (`search_client.py`, `SearchClient`)

CPython evaluates the default value of `def __init__(self,
provider_configs: dict = {})` once, when the `def` executes; every call that
omits the argument binds the same dict object, and `configure` mutates it via
`self.provider_configs.update(...)`.  `SharedWorld` holds that one shared
default dict; a `ClientObj` either references it (`usesDefault = true`, the
no-argument construction) or owns the dict the caller passed. -/

/-- The process-wide mutable state behind the facade: the single dict object
created for the default value of the `provider_configs` parameter. -/
structure SharedWorld where
  defaultDict : Configs
deriving DecidableEq, Repr

/-- One `SearchClient` object: which dict `self.provider_configs` references,
and the `self.providers` instance cache. -/
structure ClientObj where
  usesDefault : Bool
  ownConfigs : Configs
  providers : List (String × ProviderInstance)
deriving DecidableEq, Repr

/-- The dict `self.provider_configs` currently denotes for a client. -/
def SearchClient.provider_configs (w : SharedWorld) (c : ClientObj) : Configs :=
  if c.usesDefault then w.defaultDict else c.ownConfigs

/-- `SearchClient._validate_provider_key`: raise `ValueError` naming the key
and the supported set when the key is not supported. -/
def SearchClient.validate_provider_key (key : String) : Except SearchError Unit :=
  if key ∈ SearchProviderFactory.get_supported_providers then .ok ()
  else .error (.invalidProviderKey key SearchProviderFactory.get_supported_providers)

/-- `SearchClient._initialize_providers`: for every configured key in order,
validate it and store a freshly constructed adapter in `self.providers`,
propagating the first failure. -/
def SearchClient.initializeProviders (env : Env) (configs : Configs)
    (providers : List (String × ProviderInstance)) :
    Except SearchError (List (String × ProviderInstance)) :=
  match configs with
  | [] => .ok providers
  | (key, cfg) :: rest =>
    match SearchClient.validate_provider_key key with
    | .error e => .error e
    | .ok _ =>
      match SearchProviderFactory.create_provider env key cfg with
      | .ok inst =>
        SearchClient.initializeProviders env rest (alistInsert providers key inst)
      | .error e => .error e

/-- `SearchClient.__init__` called with an explicit `provider_configs`
argument: the client owns that dict and eagerly initializes its providers. -/
def SearchClient.initWith (env : Env) (provider_configs : Configs) :
    Except SearchError ClientObj :=
  (SearchClient.initializeProviders env provider_configs []).map fun ps =>
    ⟨false, provider_configs, ps⟩

/-- `SearchClient.__init__` called with the argument omitted: the client binds
the shared default dict object and eagerly initializes from its current
contents. -/
def SearchClient.initDefault (env : Env) (w : SharedWorld) :
    Except SearchError ClientObj :=
  (SearchClient.initializeProviders env w.defaultDict []).map fun ps =>
    ⟨true, [], ps⟩

/-- `SearchClient.configure`: a `None` argument is a no-op; otherwise
`self.provider_configs.update(new)` mutates the referenced dict in place
(the shared default dict when the client was built without an argument) and
`_initialize_providers` runs again over the merged map. -/
def SearchClient.configure (env : Env) (w : SharedWorld) (c : ClientObj)
    (newConfigs : Option Configs) : Except SearchError (SharedWorld × ClientObj) :=
  match newConfigs with
  | none => .ok (w, c)
  | some ncs =>
    let merged := alistUpdate (SearchClient.provider_configs w c) ncs
    let w2 : SharedWorld := if c.usesDefault then ⟨merged⟩ else w
    let own2 := if c.usesDefault then c.ownConfigs else merged
    (SearchClient.initializeProviders env merged c.providers).map fun ps =>
      (w2, ⟨c.usesDefault, own2, ps⟩)

/-- Dispatch of `provider_instance.search(query, specific_function=..,
**kwargs)` to the concrete adapter. -/
def ProviderInstance.search (inst : ProviderInstance)
    (query specific_function : String) (kwargs : PyDict) (net : Net) :
    List SearchResult × List UpstreamCall :=
  match inst with
  | .serp k => SerpSearchProvider.search k query specific_function kwargs net
  | .you k => YouSearchProvider.search k query specific_function kwargs net
  | .tavily k => TavilySearchProvider.search k query specific_function kwargs net

/-- The body of `SearchClient.search` after the partition of the spec string:
validate the provider key, construct the adapter on demand from whatever
config is on file (empty dict if none), re-read the instance cache (the
defensive `if not provider_instance` check), and delegate.  Returns the
updated client, the result list and the upstream calls issued. -/
def SearchClient.searchParsed (env : Env) (net : Net) (w : SharedWorld)
    (c : ClientObj) (provider_key specific_function query : String)
    (kwargs : PyDict) :
    Except SearchError (ClientObj × List SearchResult × List UpstreamCall) :=
  match SearchClient.validate_provider_key provider_key with
  | .error e => .error e
  | .ok _ =>
    let ensured : Except SearchError ClientObj :=
      match alistGet? c.providers provider_key with
      | some _ => .ok c
      | none =>
        let config :=
          (alistGet? (SearchClient.provider_configs w c) provider_key).getD []
        (SearchProviderFactory.create_provider env provider_key config).map
          fun inst => ⟨c.usesDefault, c.ownConfigs,
            alistInsert c.providers provider_key inst⟩
    match ensured with
    | .error e => .error e
    | .ok c2 =>
      match alistGet? c2.providers provider_key with
      | none => .error (.couldNotLoad provider_key)
      | some inst =>
        let r := inst.search query specific_function kwargs net
        .ok (c2, r.1, r.2)

/-- `SearchClient.search`: partition the spec string on the first colon and
run the parsed search. -/
def SearchClient.search (env : Env) (net : Net) (w : SharedWorld)
    (c : ClientObj) (provider query : String) (kwargs : PyDict) :
    Except SearchError (ClientObj × List SearchResult × List UpstreamCall) :=
  let parts := partitionColon provider
  SearchClient.searchParsed env net w c parts.1 parts.2 query kwargs

/-- The provenance tags of a search outcome, when it succeeded. -/
def searchSources
    (r : Except SearchError (ClientObj × List SearchResult × List UpstreamCall)) :
    Option (List String) :=
  match r with
  | .ok out => some (out.2.1.map fun x => x.source)
  | .error _ => none

/- ### Helper lemmas -/

theorem alistGet_insert_self {α : Type} (d : List (String × α)) (k : String)
    (v : α) : alistGet? (alistInsert d k v) k = some v := by
  induction d with
  | nil => simp [alistInsert, alistGet?]
  | cons p rest ih =>
    by_cases h : p.1 = k
    · simp [alistInsert, alistGet?, h]
    · simp [alistInsert, alistGet?, h, ih]

theorem alistGet_insert_other {α : Type} (d : List (String × α)) (k k2 : String)
    (v : α) (h : k2 ≠ k) : alistGet? (alistInsert d k2 v) k = alistGet? d k := by
  induction d with
  | nil => simp [alistInsert, alistGet?, h]
  | cons p rest ih =>
    by_cases h2 : p.1 = k2
    · simp [alistInsert, alistGet?, h2, h]
    · simp [alistInsert, alistGet?, h2, ih]

theorem alistGet_update_none {α : Type} (kw : List (String × α)) (k : String)
    (h : alistGet? kw k = none) (base : List (String × α)) :
    alistGet? (alistUpdate base kw) k = alistGet? base k := by
  induction kw generalizing base with
  | nil => rfl
  | cons p rest ih =>
    have hne : p.1 ≠ k := by
      intro he
      rw [alistGet?] at h
      simp [he] at h
    have hrest : alistGet? rest k = none := by
      rw [alistGet?] at h
      simpa [hne] using h
    show alistGet? (alistUpdate (alistInsert base p.1 p.2) rest) k = alistGet? base k
    rw [ih hrest, alistGet_insert_other _ _ _ _ hne]

theorem partitionColonAux_no_colon :
    ∀ l : List Char, ':' ∉ l → partitionColonAux l = none := by
  intro l
  induction l with
  | nil => intro _; rfl
  | cons c cs ih =>
    intro h
    have hc : ¬ c = ':' := by
      intro hc; exact h (by simp [hc])
    have hcs : ':' ∉ cs := fun hm => h (List.mem_cons_of_mem _ hm)
    rw [partitionColonAux, if_neg hc, ih hcs]

theorem partitionColonAux_split :
    ∀ a b : List Char, ':' ∉ a →
      partitionColonAux (a ++ ':' :: b) = some (a, b) := by
  intro a
  induction a with
  | nil => intro b _; simp [partitionColonAux]
  | cons c cs ih =>
    intro b h
    have hc : ¬ c = ':' := by
      intro hc; exact h (by simp [hc])
    have hcs : ':' ∉ cs := fun hm => h (List.mem_cons_of_mem _ hm)
    rw [List.cons_append, partitionColonAux, if_neg hc, ih b hcs]

theorem serp_supported :
    "serp" ∈ SearchProviderFactory.get_supported_providers := by decide

/- ### Claims -/

/-- C1: normalization is total for all three adapter mappings (serp organic
results, you.com hits, tavily results).  A response whose result-array key is
absent, or holds zero hits, maps to the empty list; a hit is mapped field by
field with the empty string standing in for every absent field, so a hit with
every mapped field absent yields a result whose title, url and content are all
the empty string; the mapping functions are total Lean functions, so no input
raises. -/
theorem C1_normalization_total :
    (∀ (e : String) (vr : Option (List SerpVideoHit)),
        serpMapOrganic e ⟨none, vr⟩ = [] ∧ serpMapOrganic e ⟨some [], vr⟩ = [])
  ∧ (youMapHits ⟨none⟩ = [] ∧ youMapHits ⟨some []⟩ = [])
  ∧ (tavilyMap ⟨none⟩ = [] ∧ tavilyMap ⟨some []⟩ = [])
  ∧ (∀ (e : String) (vr : Option (List SerpVideoHit)) (hit : SerpOrganicHit)
        (rest : List SerpOrganicHit),
        serpMapOrganic e ⟨some (hit :: rest), vr⟩ =
          { title := hit.title.getD "", url := hit.link.getD "",
            content := hit.snippet.getD "", source := "serpapi:" ++ e } ::
          serpMapOrganic e ⟨some rest, vr⟩)
  ∧ (∀ (hit : YouHit) (rest : List YouHit),
        youMapHits ⟨some (hit :: rest)⟩ =
          { title := hit.title.getD "", url := hit.url.getD "",
            content := pyOr (hit.description.getD "")
              (String.intercalate " " (hit.snippets.getD [])),
            source := "you.com" } :: youMapHits ⟨some rest⟩)
  ∧ (∀ (hit : TavilyHit) (rest : List TavilyHit),
        tavilyMap ⟨some (hit :: rest)⟩ =
          { title := hit.title.getD "", url := hit.url.getD "",
            content := hit.content.getD "", source := "tavily" } ::
          tavilyMap ⟨some rest⟩)
  ∧ (∀ (e : String) (vr : Option (List SerpVideoHit)),
        serpMapOrganic e ⟨some [⟨none, none, none⟩], vr⟩ =
          [⟨"", "", "", "serpapi:" ++ e⟩])
  ∧ (youMapHits ⟨some [⟨none, none, none, none⟩]⟩ = [⟨"", "", "", "you.com"⟩])
  ∧ (tavilyMap ⟨some [⟨none, none, none⟩]⟩ = [⟨"", "", "", "tavily"⟩]) := by
  refine ⟨fun e vr => ⟨rfl, rfl⟩, ⟨rfl, rfl⟩, ⟨rfl, rfl⟩,
    fun e vr hit rest => rfl, fun hit rest => rfl, fun hit rest => rfl,
    fun e vr => rfl, rfl, rfl⟩

/-- C2: for every spec string whose provider key (the part before the first
colon, the whole string when no colon is present) is not among the supported
providers, `SearchClient.search` fails with the configuration error that names
the invalid key and carries the supported set — and it does so uniformly in
the environment and network oracles and without issuing any upstream call or
constructing any adapter, since the same error value is returned whatever
`env` and `net` are and the error branch carries no trace and no updated
client. -/
theorem C2_unknown_provider_rejected_before_network (provider : String)
    (h : (partitionColon provider).1 ∉ SearchProviderFactory.get_supported_providers) :
    ∀ (env : Env) (net : Net) (w : SharedWorld) (c : ClientObj)
      (query : String) (kwargs : PyDict),
      SearchClient.search env net w c provider query kwargs =
        .error (.invalidProviderKey (partitionColon provider).1
          SearchProviderFactory.get_supported_providers) := by
  intro env net w c query kwargs
  rw [SearchClient.search, SearchClient.searchParsed,
    SearchClient.validate_provider_key, if_neg h]

/-- C2 witness: the keys "google" (no subfunction suffix) and "google"
carrying the suffix ":maps" are both rejected with the configuration error,
for a concrete client, environment and transport. -/
theorem C2_witness :
    (SearchClient.search (fun _ => none) (fun _ => .serp ⟨none, none⟩) ⟨[]⟩
        ⟨true, [], []⟩ "google" "q" [] =
      .error (.invalidProviderKey (partitionColon "google").1
        SearchProviderFactory.get_supported_providers))
  ∧ (SearchClient.search (fun _ => none) (fun _ => .serp ⟨none, none⟩) ⟨[]⟩
        ⟨true, [], []⟩ "google:maps" "q" [] =
      .error (.invalidProviderKey (partitionColon "google:maps").1
        SearchProviderFactory.get_supported_providers)) :=
  ⟨C2_unknown_provider_rejected_before_network "google" (by decide) _ _ _ _ _ _,
   C2_unknown_provider_rejected_before_network "google:maps" (by decide) _ _ _ _ _ _⟩

/-- C3: the facade splits the spec string on the first colon only — the part
before the first colon is the provider key, everything after it (later colons
included) is the subfunction; no colon yields an empty subfunction; and the
whole search pipeline is driven by exactly that split.  With the empty
subfunction the serp adapter keeps the default engine: when the caller kwargs
do not themselves set "engine", the one upstream call carries
engine = "google". -/
theorem C3_split_on_first_colon :
    (∀ a b : List Char, ':' ∉ a →
        partitionColon ⟨a ++ ':' :: b⟩ = (⟨a⟩, ⟨b⟩))
  ∧ (∀ s : String, ':' ∉ s.data → partitionColon s = (s, ""))
  ∧ (∀ (env : Env) (net : Net) (w : SharedWorld) (c : ClientObj)
        (provider query : String) (kwargs : PyDict),
        SearchClient.search env net w c provider query kwargs =
          SearchClient.searchParsed env net w c (partitionColon provider).1
            (partitionColon provider).2 query kwargs)
  ∧ (∀ (api_key query : String) (kwargs : PyDict) (net : Net),
        alistGet? kwargs "engine" = none →
        (SerpSearchProvider.search api_key query "" kwargs net).2 =
          [.serpApi (alistUpdate
            [("q", query), ("api_key", api_key), ("engine", "google")] kwargs)]
        ∧ alistGet? (alistUpdate
            [("q", query), ("api_key", api_key), ("engine", "google")] kwargs)
            "engine" = some "google") := by
  refine ⟨?_, ?_, fun env net w c provider query kwargs => rfl, ?_⟩
  · intro a b h
    unfold partitionColon
    rw [show (⟨a ++ ':' :: b⟩ : String).data = a ++ ':' :: b from rfl,
      partitionColonAux_split a b h]
  · intro s h
    unfold partitionColon
    rw [partitionColonAux_no_colon s.data h]
  · intro api_key query kwargs net h
    constructor
    · simp [SerpSearchProvider.search]
    · rw [alistGet_update_none kwargs "engine" h]
      simp [alistGet?]

/-- C3 witness: the spec "you.com:get_news:x" splits into key "you.com" and
subfunction "get_news:x"; "serp" splits into key "serp" and the empty
subfunction; and with the empty subfunction and no engine kwarg the serp
adapter issues one call whose params bind engine to "google". -/
theorem C3_witness :
    partitionColon ⟨"you.com".data ++ ':' :: "get_news:x".data⟩ =
      ("you.com", "get_news:x")
  ∧ partitionColon "serp" = ("serp", "")
  ∧ ((SerpSearchProvider.search "k" "cats" "" [] (fun _ => .serp ⟨none, none⟩)).2 =
        [.serpApi (alistUpdate
          [("q", "cats"), ("api_key", "k"), ("engine", "google")] [])]
      ∧ alistGet? (alistUpdate
          [("q", "cats"), ("api_key", "k"), ("engine", "google")] [])
          "engine" = some "google") :=
  ⟨C3_split_on_first_colon.1 "you.com".data "get_news:x".data (by decide),
   C3_split_on_first_colon.2.1 "serp" (by decide),
   C3_split_on_first_colon.2.2.2 "k" "cats" [] (fun _ => .serp ⟨none, none⟩) rfl⟩

/-- C4: for every non-empty subfunction other than "youtube", the serp adapter
issues one upstream call whose params bind "engine" to that subfunction string
verbatim (whatever the caller kwargs were — the override is applied last), and
it still maps organic results rather than rejecting locally, tagging them with
that engine; with the empty subfunction and no engine kwarg, the call binds
"engine" to "google". -/
theorem C4_serp_engine_override (api_key query sf : String) (kwargs : PyDict)
    (net : Net) (h1 : sf ≠ "") (h2 : sf ≠ "youtube") :
    (SerpSearchProvider.search api_key query sf kwargs net).2 =
      [.serpApi (alistInsert (alistUpdate
        [("q", query), ("api_key", api_key), ("engine", "google")] kwargs)
        "engine" sf)]
  ∧ alistGet? (alistInsert (alistUpdate
      [("q", query), ("api_key", api_key), ("engine", "google")] kwargs)
      "engine" sf) "engine" = some sf
  ∧ (SerpSearchProvider.search api_key query sf kwargs net).1 =
      serpMapOrganic sf ((net (.serpApi (alistInsert (alistUpdate
        [("q", query), ("api_key", api_key), ("engine", "google")] kwargs)
        "engine" sf))).asSerp)
  ∧ (∀ kw2 : PyDict, alistGet? kw2 "engine" = none →
      (SerpSearchProvider.search api_key query "" kw2 net).2 =
        [.serpApi (alistUpdate
          [("q", query), ("api_key", api_key), ("engine", "google")] kw2)]
      ∧ alistGet? (alistUpdate
          [("q", query), ("api_key", api_key), ("engine", "google")] kw2)
          "engine" = some "google") := by
  refine ⟨?_, alistGet_insert_self _ _ _, ?_, ?_⟩
  · simp [SerpSearchProvider.search, h1, h2]
  · simp [SerpSearchProvider.search, h1, h2, alistGet_insert_self]
  · intro kw2 h
    constructor
    · simp [SerpSearchProvider.search]
    · rw [alistGet_update_none kw2 "engine" h]
      simp [alistGet?]

/-- C4 witness: subfunction "bing" with empty kwargs yields one call with
engine = "bing" passed through verbatim and organic-results mapping. -/
theorem C4_witness :
    (SerpSearchProvider.search "k" "q" "bing" []
        (fun _ => .serp ⟨some [], none⟩)).2 =
      [.serpApi (alistInsert (alistUpdate
        [("q", "q"), ("api_key", "k"), ("engine", "google")] [])
        "engine" "bing")]
  ∧ alistGet? (alistInsert (alistUpdate
      [("q", "q"), ("api_key", "k"), ("engine", "google")] [])
      "engine" "bing") "engine" = some "bing"
  ∧ (SerpSearchProvider.search "k" "q" "bing" []
        (fun _ => .serp ⟨some [], none⟩)).1 =
      serpMapOrganic "bing" (((fun _ => .serp ⟨some [], none⟩ : Net)
        (.serpApi (alistInsert (alistUpdate
          [("q", "q"), ("api_key", "k"), ("engine", "google")] [])
          "engine" "bing"))).asSerp)
  ∧ ((SerpSearchProvider.search "k" "q" "" [("num", "10")]
          (fun _ => .serp ⟨some [], none⟩)).2 =
        [.serpApi (alistUpdate
          [("q", "q"), ("api_key", "k"), ("engine", "google")] [("num", "10")])]
      ∧ alistGet? (alistUpdate
          [("q", "q"), ("api_key", "k"), ("engine", "google")] [("num", "10")])
          "engine" = some "google") :=
  ⟨(C4_serp_engine_override "k" "q" "bing" [] (fun _ => .serp ⟨some [], none⟩)
      (by decide) (by decide)).1,
   (C4_serp_engine_override "k" "q" "bing" [] (fun _ => .serp ⟨some [], none⟩)
      (by decide) (by decide)).2.1,
   (C4_serp_engine_override "k" "q" "bing" [] (fun _ => .serp ⟨some [], none⟩)
      (by decide) (by decide)).2.2.1,
   (C4_serp_engine_override "k" "q" "bing" [] (fun _ => .serp ⟨some [], none⟩)
      (by decide) (by decide)).2.2.2 [("num", "10")] rfl⟩

/-- C5: the you.com adapter routes subfunction "get_news" to the news
endpoint — exactly one GET against BASE_URL/news, whose mapped entries come
from the news.results key and all carry source "you.com:news" — while every
other non-empty subfunction behaves exactly like the empty one (the whole
outcome, upstream call included, is that of the default web-search path, so
the unrecognized token is silently dropped rather than sent upstream). -/
theorem C5_you_subfunction_routing :
    (∀ (api_key query : String) (kwargs : PyDict) (net : Net),
        YouSearchProvider.search api_key query "get_news" kwargs net =
          YouSearchProvider.get_news api_key query kwargs net)
  ∧ (∀ (api_key query : String) (kwargs : PyDict) (net : Net),
        (YouSearchProvider.get_news api_key query kwargs net).2 =
          [.httpGet (YouSearchProvider.BASE_URL ++ "/news?q=" ++ query)
            (alistUpdate [("q", query)] kwargs) [("X-API-Key", api_key)]])
  ∧ (∀ items : List YouNewsItem,
        youMapNews ⟨some ⟨some items⟩⟩ = items.map fun r =>
          { title := r.title.getD "", url := r.url.getD "",
            content := r.description.getD "", source := "you.com:news" })
  ∧ (∀ data : YouNewsData, ∀ r ∈ youMapNews data, r.source = "you.com:news")
  ∧ (∀ (api_key query sf : String) (kwargs : PyDict) (net : Net),
        sf ≠ "get_news" →
        YouSearchProvider.search api_key query sf kwargs net =
          YouSearchProvider.search api_key query "" kwargs net) := by
  refine ⟨fun api_key query kwargs net => rfl, fun api_key query kwargs net => rfl,
    fun items => rfl, ?_, ?_⟩
  · intro data r hr
    obtain ⟨x, _, rfl⟩ := List.mem_map.1 hr
    rfl
  · intro api_key query sf kwargs net h
    simp [YouSearchProvider.search, h]

/-- C5 witness: the subfunction "news" (not "get_news") is silently ignored —
the outcome coincides with the default web-search path — and a concrete news
payload maps to results tagged "you.com:news". -/
theorem C5_witness :
    YouSearchProvider.search "k" "x" "news" [] (fun _ => .youSearch ⟨some []⟩) =
      YouSearchProvider.search "k" "x" "" [] (fun _ => .youSearch ⟨some []⟩)
  ∧ (∀ r ∈ youMapNews ⟨some ⟨some [⟨some "t", some "u", some "d"⟩]⟩⟩,
      r.source = "you.com:news") :=
  ⟨C5_you_subfunction_routing.2.2.2.2 "k" "x" "news" [] _ (by decide),
   C5_you_subfunction_routing.2.2.2.1 ⟨some ⟨some [⟨some "t", some "u", some "d"⟩]⟩⟩⟩

/-- C7: the serp subfunction "youtube" routes to the youtube search, which
issues one call with engine "youtube" and maps the video_results array (an
absent video_results key maps to no results, whatever organic_results holds);
each result renders content as the concatenation of duration, view count,
channel name and description, and carries source "serpapi:youtube". -/
theorem C7_serp_youtube_mapping :
    (∀ (api_key query : String) (kwargs : PyDict) (net : Net),
        SerpSearchProvider.search api_key query "youtube" kwargs net =
          SerpSearchProvider.youtube_search api_key query kwargs net)
  ∧ (∀ (api_key query : String) (kwargs : PyDict) (net : Net),
        (SerpSearchProvider.youtube_search api_key query kwargs net).1 =
          serpMapVideos ((net (.serpApi (alistUpdate
            [("q", query), ("api_key", api_key), ("engine", "youtube")]
            kwargs))).asSerp))
  ∧ (∀ (orr : Option (List SerpOrganicHit)) (vids : List SerpVideoHit),
        serpMapVideos ⟨orr, some vids⟩ = vids.map fun r =>
          { title := r.title.getD "", url := r.link.getD "",
            content := "Duration: " ++ r.duration.getD "N/A" ++ " | Views: " ++
              r.views.getD "N/A" ++ " | Channel: " ++
              ((r.channel.getD ⟨none⟩).name.getD "N/A") ++
              " | Description: " ++ r.description.getD "",
            source := "serpapi:youtube" })
  ∧ (∀ orr : Option (List SerpOrganicHit), serpMapVideos ⟨orr, none⟩ = []) := by
  exact ⟨fun api_key query kwargs net => rfl, fun api_key query kwargs net => rfl,
    fun orr vids => rfl, fun orr => rfl⟩

/-- The environment for the C6 end-to-end scenario: no variable set. -/
def c6Env : Env := fun _ => none

/-- The C6 transport: every call answers with two organic_results entries. -/
def c6Net : Net := fun _ =>
  .serp ⟨some [⟨some "t1", some "u1", some "s1"⟩,
               ⟨some "t2", some "u2", some "s2"⟩], none⟩

/-- The C6 scenario run: configure the facade with serp api_key "k", then the
provenance tags of `facade.search("serp", "cats", {})`. -/
def c6Run : Option (List String) :=
  match SearchClient.initWith c6Env [("serp", [("api_key", "k")])] with
  | .ok c => searchSources (SearchClient.search c6Env c6Net ⟨[]⟩ c "serp" "cats" [])
  | .error _ => none

/-- C6 counterexample: the end-to-end scenario returns two results, but their
source tag is the string "serpapi:google" — the serp adapter hard-codes the
backend tag "serpapi" — not the claimed "serp:google". -/
theorem C6_counterexample :
    c6Run = some ["serpapi:google", "serpapi:google"]
  ∧ c6Run ≠ some ["serp:google", "serp:google"] :=
  ⟨by decide, by decide⟩

/-- C6 amended: end-to-end with configuration serp api_key "k" and an
upstream response of two organic_results entries, the facade search on
"serp" returns exactly two normalized results whose source is
"serpapi:google" on both. -/
theorem C6_amended_source_serpapi_google (h1 h2 : SerpOrganicHit) (env : Env)
    (w : SharedWorld) (query : String) :
    SearchClient.initWith env [("serp", [("api_key", "k")])] =
      .ok ⟨false, [("serp", [("api_key", "k")])], [("serp", .serp "k")]⟩
  ∧ searchSources (SearchClient.search env (fun _ => .serp ⟨some [h1, h2], none⟩)
      w ⟨false, [("serp", [("api_key", "k")])], [("serp", .serp "k")]⟩
      "serp" query []) = some ["serpapi:google", "serpapi:google"] :=
  ⟨rfl, rfl⟩

/-- C8: the registry scan of the repository providers directory returns
exactly the keys derived by stripping the suffix from each matching file stem
(namely serp, tavily, you); the `functools.cache` cell stores that result on
the first call, and any later call returns the stored value unchanged — in
particular a provider file added to the directory after the first call does
not change the answer within the same process. -/
theorem C8_supported_providers_scan_and_memo :
    (SearchProviderFactory.get_supported_providers_cached providersDirFiles
        ⟨none⟩ =
      (["serp", "tavily", "you"], ⟨some ["serp", "tavily", "you"]⟩))
  ∧ (SearchProviderFactory.get_supported_providers =
      (providersDirFiles.filter globProviderFile).map fun f =>
        pyReplace (fileStem f) "_search_provider" "")
  ∧ (∀ (files2 : List String) (st : FactoryCache) (v : List String),
      st.cache = some v →
      SearchProviderFactory.get_supported_providers_cached files2 st = (v, st)) := by
  refine ⟨by decide, rfl, ?_⟩
  intro files2 st v h
  obtain ⟨c⟩ := st
  simp only at h
  subst h
  rfl

/-- C8 witness: after the cache has been filled, a scan over a directory that
has gained bing_search_provider.py still returns the three original keys. -/
theorem C8_witness :
    SearchProviderFactory.get_supported_providers_cached
      (providersDirFiles ++ ["bing_search_provider.py"])
      ⟨some ["serp", "tavily", "you"]⟩ =
      (["serp", "tavily", "you"], ⟨some ["serp", "tavily", "you"]⟩) :=
  C8_supported_providers_scan_and_memo.2.2 _ _ _ rfl

/-- C9: adapter construction fails closed.  With no explicit api_key option
and the provider-specific environment variable unset, each of the three
constructors — and the registry construction for the you.com adapter — raises
the missing-credential configuration error, before any network call can exist
(construction takes no transport oracle at all); supplying a non-empty
explicit key, or a non-empty value of the environment variable, makes
construction succeed with that key. -/
theorem C9_construction_fails_closed :
    (∀ env : Env, env "YOU_COM_API_KEY" = none →
        YouSearchProvider.init env none = .error (.missingCredential "you.com"))
  ∧ (∀ env : Env, env "SERP_API_KEY" = none →
        SerpSearchProvider.init env none = .error (.missingCredential "serp"))
  ∧ (∀ env : Env, env "TAVILY_API_KEY" = none →
        TavilySearchProvider.init env none = .error (.missingCredential "tavily"))
  ∧ (∀ env : Env, env "YOU_COM_API_KEY" = none →
        SearchProviderFactory.create_provider env "you" [] =
          .error (.missingCredential "you.com"))
  ∧ (∀ (env : Env) (k : String), k ≠ "" →
        YouSearchProvider.init env (some k) = .ok k
      ∧ SerpSearchProvider.init env (some k) = .ok k
      ∧ TavilySearchProvider.init env (some k) = .ok k)
  ∧ (∀ (env : Env) (k : String), k ≠ "" → env "YOU_COM_API_KEY" = some k →
        YouSearchProvider.init env none = .ok k) := by
  refine ⟨?_, ?_, ?_, ?_, ?_, ?_⟩
  · intro env h; simp [YouSearchProvider.init, pyOrOpt, pyTruthy, h]
  · intro env h; simp [SerpSearchProvider.init, pyOrOpt, pyTruthy, h]
  · intro env h; simp [TavilySearchProvider.init, pyOrOpt, pyTruthy, h]
  · intro env h
    simp [SearchProviderFactory.create_provider, YouSearchProvider.init,
      alistGet?, pyOrOpt, pyTruthy, h, Except.map]
  · intro env k hk
    refine ⟨?_, ?_, ?_⟩ <;>
      simp [YouSearchProvider.init, SerpSearchProvider.init,
        TavilySearchProvider.init, pyOrOpt, pyTruthy, hk]
  · intro env k hk h
    simp [YouSearchProvider.init, pyOrOpt, pyTruthy, h, hk]

/-- An environment with only YOU_COM_API_KEY set, for the C9 witness. -/
def c9EnvSet : Env := fun v => if v = "YOU_COM_API_KEY" then some "yk" else none

/-- C9 witness: with the empty environment all three adapters and the
registry fail closed; the explicit key "yk" succeeds, and so does the
environment variable alone. -/
theorem C9_witness :
    YouSearchProvider.init (fun _ => none) none =
      .error (.missingCredential "you.com")
  ∧ SerpSearchProvider.init (fun _ => none) none =
      .error (.missingCredential "serp")
  ∧ TavilySearchProvider.init (fun _ => none) none =
      .error (.missingCredential "tavily")
  ∧ SearchProviderFactory.create_provider (fun _ => none) "you" [] =
      .error (.missingCredential "you.com")
  ∧ (YouSearchProvider.init (fun _ => none) (some "yk") = .ok "yk"
      ∧ SerpSearchProvider.init (fun _ => none) (some "yk") = .ok "yk"
      ∧ TavilySearchProvider.init (fun _ => none) (some "yk") = .ok "yk")
  ∧ YouSearchProvider.init c9EnvSet none = .ok "yk" :=
  ⟨C9_construction_fails_closed.1 _ rfl,
   C9_construction_fails_closed.2.1 _ rfl,
   C9_construction_fails_closed.2.2.1 _ rfl,
   C9_construction_fails_closed.2.2.2.1 _ rfl,
   C9_construction_fails_closed.2.2.2.2.1 _ "yk" (by decide),
   C9_construction_fails_closed.2.2.2.2.2 c9EnvSet "yk" (by decide) rfl⟩

/-- C10: every `SearchClient` built without an explicit `provider_configs`
argument binds the one dict object created for the parameter default, so
`configure` on one such client mutates the dict every other such client
reads.  Concretely, against a pristine default dict two no-argument clients
are built with empty state; configuring the first with a serp entry moves the
entry into the shared default dict (and rebuilds that client's adapter); the
second, untouched client now reads that entry through `provider_configs`, its
next on-demand search constructs the serp adapter from the shared entry, and
a client constructed afterwards without an argument sees the entry at
construction time and eagerly builds the adapter. -/
theorem C10_shared_default_configs (env : Env) :
    (SearchClient.initDefault env ⟨[]⟩ = .ok ⟨true, [], []⟩)
  ∧ (SearchClient.configure env ⟨[]⟩ ⟨true, [], []⟩
        (some [("serp", [("api_key", "k")])]) =
      .ok (⟨[("serp", [("api_key", "k")])]⟩, ⟨true, [], [("serp", .serp "k")]⟩))
  ∧ (SearchClient.provider_configs ⟨[("serp", [("api_key", "k")])]⟩
        ⟨true, [], []⟩ = [("serp", [("api_key", "k")])])
  ∧ (SearchClient.search env (fun _ => .serp ⟨none, none⟩)
        ⟨[("serp", [("api_key", "k")])]⟩ ⟨true, [], []⟩ "serp" "q" [] =
      .ok (⟨true, [], [("serp", .serp "k")]⟩, [],
        [.serpApi [("q", "q"), ("api_key", "k"), ("engine", "google")]]))
  ∧ (SearchClient.initDefault env ⟨[("serp", [("api_key", "k")])]⟩ =
      .ok ⟨true, [], [("serp", .serp "k")]⟩) :=
  ⟨rfl, rfl, rfl, rfl, rfl⟩
